import Mathlib

/-!
Verification of the cron/alerting core of the repository:
the alert filtering base class (`bi/cron/alerts/base.py`), the alert
router and job lifecycle of `CronBase` (`bi/cron/base.py`), the Slack
webhook channel (`bi/cron/alerts/slack.py`), the database channel
(`common/cron/alerts/dataloop.py`) and the retry decorator
(`bi/utils/retry.py`), shallowly embedded as Lean functions.
-/

/-! ## Python value model

Payloads (`additional_data`) travel through the system either as plain
strings or as JSON-serializable structures.  `PyVal` models the Python
values that can appear: `None`, booleans, integers, strings, lists and
(insertion-ordered) string-keyed dicts. -/

inductive PyVal : Type
| none : PyVal
| bool : Bool → PyVal
| int : Int → PyVal
| str : String → PyVal
| list : List PyVal → PyVal
| dict : List (String × PyVal) → PyVal

/-- Python exceptions that the embedded code can raise. -/
inductive PyErr : Type
| keyError : String → PyErr
| attributeError : String → PyErr
| typeError : String → PyErr
| jsonDecodeError : String → PyErr
| cronException : String → PyErr
deriving DecidableEq

/-- Python truthiness of a value (`if additional_data:`). -/
def pyTruthy : PyVal → Bool
| PyVal.none => false
| PyVal.bool b => b
| PyVal.int n => n != 0
| PyVal.str s => s ≠ ""
| PyVal.list xs => !xs.isEmpty
| PyVal.dict kvs => !kvs.isEmpty

/-- `isinstance(x, str)`. -/
def pyIsStr : PyVal → Bool
| PyVal.str _ => true
| _ => false

/-- Ordered-dict lookup (Python `d[k]` success case). -/
def pyLookup (kvs : List (String × PyVal)) (k : String) : Option PyVal :=
  match kvs with
  | [] => Option.none
  | kv :: rest => if kv.1 = k then some kv.2 else pyLookup rest k

/-! ## JSON serialization (`json.dumps`, default separators / ensure_ascii) -/

def hexDigit (n : Nat) : Char :=
  if n < 10 then Char.ofNat (48 + n) else Char.ofNat (87 + n)

def hex4 (n : Nat) : String :=
  String.mk [hexDigit ((n / 4096) % 16), hexDigit ((n / 256) % 16),
             hexDigit ((n / 16) % 16), hexDigit (n % 16)]

def jsonEscapeChar (c : Char) : String :=
  if c = '"' then "\\\""
  else if c = '\\' then "\\\\"
  else if c = '\n' then "\\n"
  else if c = '\t' then "\\t"
  else if c = '\r' then "\\r"
  else if c = '\x08' then "\\b"
  else if c = '\x0c' then "\\f"
  else if c.toNat < 32 ∨ 126 < c.toNat then ("\\u") ++ hex4 c.toNat
  else String.singleton c

def jsonDumpsString (s : String) : String :=
  ("\"") ++ String.join (s.data.map jsonEscapeChar) ++ ("\"")

mutual

def jsonDumps : PyVal → String
| PyVal.none => "null"
| PyVal.bool true => "true"
| PyVal.bool false => "false"
| PyVal.int n => toString n
| PyVal.str s => jsonDumpsString s
| PyVal.list xs => ("[") ++ String.intercalate (", ") (jsonDumpsList xs) ++ ("]")
| PyVal.dict kvs => ("\x7b") ++ String.intercalate (", ") (jsonDumpsKvs kvs) ++ ("\x7d")

def jsonDumpsList : List PyVal → List String
| [] => []
| x :: xs => jsonDumps x :: jsonDumpsList xs

def jsonDumpsKvs : List (String × PyVal) → List String
| [] => []
| kv :: kvs => (jsonDumpsString kv.1 ++ (": ") ++ jsonDumps kv.2) :: jsonDumpsKvs kvs

end

/-! ## Retry decorator (`bi/utils/retry.py`)

The wrapped operation is modelled as a map from the attempt index to the
attempt's outcome: a value, an exception matched by `exceptions_to_retry`,
or a non-matching exception.  The run of `f_retry` is recorded as a trace
of observable events (attempts, callback invocations with their
arguments, sleeps) together with the final outcome. -/

/-- Outcome of one call of the wrapped operation `f`. -/
inductive AttemptResult (ε α : Type) : Type
| ok : α → AttemptResult ε α
| matchErr : ε → AttemptResult ε α
| otherErr : ε → AttemptResult ε α

/-- Observable events of one `f_retry` run.  A `callback` event records
the arguments `(e, remaining_tries, next_delay)` that
`exception_callback` receives. -/
inductive RetryEvent (ε : Type) : Type
| attempt : Nat → RetryEvent ε
| callback : ε → Nat → Nat → RetryEvent ε
| sleep : Nat → RetryEvent ε

/-- Final outcome of an `f_retry` run.  `raisedNone` models Python's
`raise last_exception` when `last_exception` is still `None` (only
reachable with `tries ≤ 0`). -/
inductive RetryOutcome (ε α : Type) : Type
| ok : α → RetryOutcome ε α
| raised : ε → RetryOutcome ε α
| raisedNone : RetryOutcome ε α

/-- The `while remaining_tries > 0` loop of `f_retry`, embedding
`retry.deco_retry.f_retry`.  Arguments past `backoff` are the loop
state: `remaining_tries`, `next_delay`, the index of the next attempt,
and `last_exception`. -/
def retry.f_retry {ε α : Type} (f : Nat → AttemptResult ε α)
    (has_exception_callback : Bool) (backoff : Nat) :
    Nat → Nat → Nat → Option ε → List (RetryEvent ε) × RetryOutcome ε α
| 0, _, _, last =>
    ([], match last with
         | some e => RetryOutcome.raised e
         | Option.none => RetryOutcome.raisedNone)
| remaining + 1, next_delay, idx, _ =>
    match f idx with
    | AttemptResult.ok a => ([RetryEvent.attempt idx], RetryOutcome.ok a)
    | AttemptResult.otherErr e => ([RetryEvent.attempt idx], RetryOutcome.raised e)
    | AttemptResult.matchErr e =>
        let rest := retry.f_retry f has_exception_callback backoff
          remaining (next_delay * backoff) (idx + 1) (some e)
        (RetryEvent.attempt idx ::
           ((if has_exception_callback
             then [RetryEvent.callback e (remaining + 1) next_delay]
             else []) ++ RetryEvent.sleep next_delay :: rest.1),
         rest.2)

/-- A full run of the decorated function: `retry(exceptions, callback,
tries, delay, backoff)` applied to `f`, called once. -/
def retry.run {ε α : Type} (f : Nat → AttemptResult ε α)
    (has_exception_callback : Bool) (tries delay backoff : Nat) :
    List (RetryEvent ε) × RetryOutcome ε α :=
  retry.f_retry f has_exception_callback backoff tries delay 0 Option.none

/-- Number of attempts (calls of the wrapped operation) in a trace. -/
def countAttempts {ε : Type} : List (RetryEvent ε) → Nat
| [] => 0
| RetryEvent.attempt _ :: evs => countAttempts evs + 1
| _ :: evs => countAttempts evs

/-- Number of callback invocations in a trace. -/
def countCallbacks {ε : Type} : List (RetryEvent ε) → Nat
| [] => 0
| RetryEvent.callback _ _ _ :: evs => countCallbacks evs + 1
| _ :: evs => countCallbacks evs

/-- The sleep durations of a trace, in order. -/
def sleepDelays {ε : Type} : List (RetryEvent ε) → List Nat
| [] => []
| RetryEvent.sleep d :: evs => d :: sleepDelays evs
| _ :: evs => sleepDelays evs

/-! ## JSON parsing (`json.loads`)

A fuel-based recursive-descent parser for the JSON subset `jsonDumps`
produces (objects, arrays, strings with the standard short escapes,
integers, `null`, `true`, `false`).  A parse failure models
`json.JSONDecodeError`. -/

def jsonWs (c : Char) : Bool :=
  [' ', '\t', '\n', '\r'].contains c

def skipWs : List Char → List Char
| [] => []
| c :: cs => if jsonWs c then skipWs cs else c :: cs

def jsonEscapePairs : List (Char × Char) :=
  [('n', '\n'), ('t', '\t'), ('r', '\r'), ('b', '\x08'), ('f', '\x0c'),
   ('"', '"'), ('\\', '\\'), ('/', '/')]

def jsonUnescapeChar (e : Char) : Option Char := jsonEscapePairs.lookup e

/-- Parse the body of a JSON string (opening quote already consumed). -/
def parseStrAux : List Char → Except PyErr (List Char × List Char)
| [] => Except.error (PyErr.jsonDecodeError ("unterminated string"))
| ['\\'] => Except.error (PyErr.jsonDecodeError ("unterminated string"))
| '"' :: cs => Except.ok ([], cs)
| '\\' :: e :: cs =>
    match jsonUnescapeChar e with
    | some d => (parseStrAux cs).map (fun r => (d :: r.1, r.2))
    | Option.none => Except.error (PyErr.jsonDecodeError ("unsupported escape"))
| c :: cs => (parseStrAux cs).map (fun r => (c :: r.1, r.2))

def parseNatAux : List Char → Nat → Nat × List Char
| [], acc => (acc, [])
| c :: cs, acc =>
    if c.isDigit then parseNatAux cs (acc * 10 + (c.toNat - 48)) else (acc, c :: cs)

def parseIntAux : List Char → Except PyErr (Int × List Char)
| '-' :: c :: cs =>
    if c.isDigit then
      let r := parseNatAux (c :: cs) 0
      Except.ok (-(Int.ofNat r.1), r.2)
    else Except.error (PyErr.jsonDecodeError ("expecting value"))
| c :: cs =>
    if c.isDigit then
      let r := parseNatAux (c :: cs) 0
      Except.ok (Int.ofNat r.1, r.2)
    else Except.error (PyErr.jsonDecodeError ("expecting value"))
| [] => Except.error (PyErr.jsonDecodeError ("expecting value"))

/-- Python-dict assignment `d[k] = v`: overrides the value of an existing
key in place, appends a new key at the end. -/
def dictInsert : List (String × PyVal) → String → PyVal → List (String × PyVal)
| [], k, v => [(k, v)]
| kv :: rest, k, v => if kv.1 = k then (k, v) :: rest else kv :: dictInsert rest k v

def lbrace : Char := Char.ofNat 123

def rbrace : Char := Char.ofNat 125

mutual

def parseVal : Nat → List Char → Except PyErr (PyVal × List Char)
| 0, _ => Except.error (PyErr.jsonDecodeError ("input too deep"))
| fuel + 1, input =>
    match skipWs input with
    | [] => Except.error (PyErr.jsonDecodeError ("expecting value"))
    | c :: cs =>
        if c = '"' then
          (parseStrAux cs).map (fun r => (PyVal.str (String.mk r.1), r.2))
        else if c = '[' then
          match skipWs cs with
          | d :: cs2 =>
              if d = ']' then Except.ok (PyVal.list [], cs2)
              else (parseArrItems fuel (d :: cs2)).map (fun r => (PyVal.list r.1, r.2))
          | [] => Except.error (PyErr.jsonDecodeError ("unterminated array"))
        else if c = lbrace then
          match skipWs cs with
          | d :: cs2 =>
              if d = rbrace then Except.ok (PyVal.dict [], cs2)
              else
                (parseObjItems fuel (d :: cs2)).map (fun r =>
                  (PyVal.dict (r.1.foldl (fun acc kv => dictInsert acc kv.1 kv.2) []), r.2))
          | [] => Except.error (PyErr.jsonDecodeError ("unterminated object"))
        else if c = 'n' then
          match cs with
          | 'u' :: 'l' :: 'l' :: cs2 => Except.ok (PyVal.none, cs2)
          | _ => Except.error (PyErr.jsonDecodeError ("expecting value"))
        else if c = 't' then
          match cs with
          | 'r' :: 'u' :: 'e' :: cs2 => Except.ok (PyVal.bool true, cs2)
          | _ => Except.error (PyErr.jsonDecodeError ("expecting value"))
        else if c = 'f' then
          match cs with
          | 'a' :: 'l' :: 's' :: 'e' :: cs2 => Except.ok (PyVal.bool false, cs2)
          | _ => Except.error (PyErr.jsonDecodeError ("expecting value"))
        else
          (parseIntAux (c :: cs)).map (fun r => (PyVal.int r.1, r.2))

def parseArrItems : Nat → List Char → Except PyErr (List PyVal × List Char)
| 0, _ => Except.error (PyErr.jsonDecodeError ("input too deep"))
| fuel + 1, input => do
    let r ← parseVal fuel input
    match skipWs r.2 with
    | c :: cs =>
        if c = ',' then (parseArrItems fuel cs).map (fun r2 => (r.1 :: r2.1, r2.2))
        else if c = ']' then Except.ok ([r.1], cs)
        else Except.error (PyErr.jsonDecodeError ("expecting comma"))
    | [] => Except.error (PyErr.jsonDecodeError ("unterminated array"))

def parseObjItems : Nat → List Char → Except PyErr (List (String × PyVal) × List Char)
| 0, _ => Except.error (PyErr.jsonDecodeError ("input too deep"))
| fuel + 1, input =>
    match skipWs input with
    | c :: cs =>
        if c = '"' then do
          let k ← parseStrAux cs
          match skipWs k.2 with
          | d :: cs2 =>
              if d = ':' then do
                let v ← parseVal fuel cs2
                match skipWs v.2 with
                | e :: cs3 =>
                    if e = ',' then
                      (parseObjItems fuel cs3).map (fun r =>
                        ((String.mk k.1, v.1) :: r.1, r.2))
                    else if e = rbrace then Except.ok ([(String.mk k.1, v.1)], cs3)
                    else Except.error (PyErr.jsonDecodeError ("expecting comma"))
                | [] => Except.error (PyErr.jsonDecodeError ("unterminated object"))
              else Except.error (PyErr.jsonDecodeError ("expecting colon"))
          | [] => Except.error (PyErr.jsonDecodeError ("unterminated object"))
        else Except.error (PyErr.jsonDecodeError ("expecting property name"))
    | [] => Except.error (PyErr.jsonDecodeError ("unterminated object"))

end

/-- `json.loads`. -/
def jsonLoads (s : String) : Except PyErr PyVal := do
  let r ← parseVal (s.length + 1) s.data
  match skipWs r.2 with
  | [] => Except.ok r.1
  | _ => Except.error (PyErr.jsonDecodeError ("extra data"))

/-! ## Alert base class (`bi/cron/alerts/base.py`) -/

/-- State of an `AlertSystem` instance.  `levels` is the supported level
set, `monitored_levels` the watched subset.  The constructor sets both
to the provided `levels` list (default
`['SUCCESS', 'WARNING', 'FAILURE']`). -/
structure AlertSystem : Type where
  levels : List String
  monitored_levels : List String
  env_name : String

/-- `AlertSystem.__init__` with the default `levels` argument. -/
def AlertSystem.init (env_name : String) : AlertSystem :=
  { levels := [("SUCCESS"), ("WARNING"), ("FAILURE")],
    monitored_levels := [("SUCCESS"), ("WARNING"), ("FAILURE")],
    env_name := env_name }

/-- `AlertSystem.set_monitored_levels`: keep the requested levels that
are also supported. -/
def AlertSystem.set_monitored_levels (s : AlertSystem) (new_levels : List String) :
    AlertSystem :=
  { s with monitored_levels := new_levels.filter (fun level => decide (level ∈ s.levels)) }

/-- Arguments of one `send_alert_internal` (channel delivery) call. -/
structure DeliveryCall : Type where
  klass : String
  level : String
  title : String
  additional_data : String
deriving DecidableEq

/-- `AlertSystem.send_alert`: the two-stage level filter.  Returns the
delivery call made (`some`) or `none` when the alert is filtered out
before `send_alert_internal` is reached. -/
def AlertSystem.send_alert (s : AlertSystem) (klass level title additional_data : String) :
    Option DeliveryCall :=
  if level ∉ s.levels then Option.none
  else if level ∉ s.monitored_levels then Option.none
  else some { klass := klass, level := level, title := title,
              additional_data := additional_data }

/-! ## Alert router (`CronBase`, `bi/cron/base.py`) -/

/-- A registered alert system together with the outcome its
`send_alert_internal` produces for a given call (delivery is external
I/O: a DB insert or an HTTP POST that may raise). -/
structure Channel : Type where
  sys : AlertSystem
  deliver : DeliveryCall → Except PyErr Unit

/-- `CronBase.build_descriptive`. -/
def CronBase.build_descriptive : String := "CronBase processing"

/-- The string conversion in `CronBase.send_alert`: keep a `str` as is,
JSON-encode anything else. -/
def pyStrOrJson : PyVal → String
| PyVal.str s => s
| v => jsonDumps v

/-- The fan-out loop of `CronBase.send_alert`
(`for system in self.alert_systems.values(): system.send_alert(...)`).
Returns the delivery calls actually made, tagged with the registration
index of the channel that received them, and the error of the first
failing delivery (which aborts the loop), if any. -/
def CronBase.send_alert_loop :
    List Channel → Nat → String → String → String → String →
    List (Nat × DeliveryCall) × Option PyErr
| [], _, _, _, _, _ => ([], Option.none)
| c :: rest, idx, klass, level, title, data =>
    match c.sys.send_alert klass level title data with
    | Option.none => CronBase.send_alert_loop rest (idx + 1) klass level title data
    | some call =>
        match c.deliver call with
        | Except.ok _ =>
            let r := CronBase.send_alert_loop rest (idx + 1) klass level title data
            ((idx, call) :: r.1, r.2)
        | Except.error e => ([(idx, call)], some e)

/-- `CronBase.send_alert`: build the full title, stringify the payload,
then fan out to every registered alert system in registration order. -/
def CronBase.send_alert (channels : List Channel) (klass level title : String)
    (additional_data : PyVal) : List (Nat × DeliveryCall) × Option PyErr :=
  CronBase.send_alert_loop channels 0 klass level
    (CronBase.build_descriptive ++ (": ") ++ title) (pyStrOrJson additional_data)

/-- `CronBase.set_alert_levels`: update the named alert system's
monitored levels; no-op when the name is not registered.  The
`alert_systems` dict is modelled as an insertion-ordered association
list. -/
def CronBase.set_alert_levels (systems : List (String × AlertSystem))
    (alert_system : String) (monitored_levels : List String) :
    List (String × AlertSystem) :=
  if alert_system ∈ systems.map Prod.fst then
    systems.map (fun p =>
      if p.1 = alert_system then (p.1, p.2.set_monitored_levels monitored_levels) else p)
  else systems

/-- Number of delivery calls a given registration index received during
one dispatch. -/
def countIdx (i : Nat) (tr : List (Nat × DeliveryCall)) : Nat :=
  (tr.filter (fun p => p.1 == i)).length

/-! ## Slack webhook channel (`bi/cron/alerts/slack.py`) -/

/-- One entry of the `fields` list of a Slack message attachment. -/
structure SlackField : Type where
  title : String
  value : PyVal
  short : Bool

/-- `SlackAlertSystem.append_field`. -/
def SlackAlertSystem.append_field (field_collection : List SlackField)
    (field_name : String) (field_value : PyVal) : List SlackField :=
  field_collection ++ [{ title := field_name, value := field_value, short := true }]

/-- The `self.colors` mapping set up in `SlackAlertSystem.__init__`. -/
def SlackAlertSystem.colors : List (String × String) :=
  [(("SUCCESS"), ("good")), (("WARNING"), ("warning")), (("FAILURE"), ("danger"))]

/-- The message attachment built by `send_alert_internal` (`msg`). -/
structure SlackMsg : Type where
  author_name : String
  title : String
  color : String
  text : Option String
  mrkdwn_in : Option (List String)
  fields : List SlackField

/-- The posted JSON body (`wrapper`). -/
structure SlackWrapper : Type where
  username : String
  attachments : List SlackMsg

/-- `"\n".join(x)`: requires a list whose entries are all strings. -/
def pyJoinList : List PyVal → Except PyErr (List String)
| [] => Except.ok []
| PyVal.str s :: rest => (pyJoinList rest).map (fun l => s :: l)
| _ :: _ => Except.error (PyErr.typeError ("sequence item: expected str instance"))

def pyJoin (sep : String) : PyVal → Except PyErr String
| PyVal.list xs => (pyJoinList xs).map (fun l => String.intercalate sep l)
| _ => Except.error (PyErr.typeError ("can only join an iterable"))

/-- `SlackAlertSystem.send_alert_internal`: builds the message that is
POSTed to the webhook endpoint.  Returns the built `wrapper`, or the
exception the body raises while building it (`KeyError` from
`self.colors[level]` or `additional_data['traceback']`,
`AttributeError` from `.keys()` on a non-dict, `JSONDecodeError` from
`json.loads`). The HTTP POST itself is external I/O and is modelled by
`Channel.deliver`. -/
def SlackAlertSystem.send_alert_internal (username env_name : String)
    (klass level title raw_additional_data : String) :
    Except PyErr SlackWrapper := do
  let color ← match SlackAlertSystem.colors.lookup level with
    | some c => Except.ok c
    | Option.none => Except.error (PyErr.keyError level)
  let fields := SlackAlertSystem.append_field [] ("source") (PyVal.str klass)
  let fields := SlackAlertSystem.append_field fields ("level") (PyVal.str level)
  let fields := SlackAlertSystem.append_field fields ("env") (PyVal.str env_name)
  let msg_title := level ++ (": ") ++ title
  if raw_additional_data ≠ "" then
    let additional_data ← jsonLoads raw_additional_data
    if pyTruthy additional_data then
      let kvs ← match additional_data with
        | PyVal.dict kvs => Except.ok kvs
        | _ => Except.error (PyErr.attributeError ("object has no attribute keys"))
      let fields := kvs.foldl
        (fun fs kv =>
          if kv.1 ≠ ("traceback") then SlackAlertSystem.append_field fs kv.1 kv.2 else fs)
        fields
      let tb ← match pyLookup kvs ("traceback") with
        | some v => Except.ok v
        | Option.none => Except.error (PyErr.keyError ("traceback"))
      let preformatted ← pyJoin ("\n") tb
      let text := ("```") ++ preformatted ++ ("```")
      Except.ok { username := username,
                  attachments := [{ author_name := username, title := msg_title,
                                    color := color, text := some text,
                                    mrkdwn_in := some [("text")], fields := fields }] }
    else
      Except.ok { username := username,
                  attachments := [{ author_name := username, title := msg_title,
                                    color := color, text := Option.none,
                                    mrkdwn_in := Option.none, fields := fields }] }
  else
    Except.ok { username := username,
                attachments := [{ author_name := username, title := msg_title,
                                  color := color, text := Option.none,
                                  mrkdwn_in := Option.none, fields := fields }] }

/-! ## Database channel (`common/cron/alerts/dataloop.py`) -/

/-- The `self.status_codes` mapping set up in
`DataLoopAlertSystem.__init__`. -/
def DataLoopAlertSystem.status_codes : List (String × Nat) :=
  [(("SUCCESS"), 0), (("WARNING"), 1), (("FAILURE"), 2)]

/-- The row inserted by `DataLoopAlertSystem.send_alert_internal`.
`err_date` is generated server-side by `NOW()` in the statement text
and is represented here by that literal. -/
structure DataLoopRow : Type where
  source : String
  err_date : String
  status : Nat
  err_msg : String
  err_additional : String
  env : String

/-- `DataLoopAlertSystem.send_alert_internal`: the row the INSERT
statement writes (columns in statement order with their bound
attributes).  `self.status_codes[level]` raises `KeyError` for an
unknown level.  The connection handling and the `cursor.execute` /
`commit` calls are external I/O. -/
def DataLoopAlertSystem.send_alert_internal (env_name : String)
    (klass level title additional_data : String) : Except PyErr DataLoopRow :=
  match DataLoopAlertSystem.status_codes.lookup level with
  | Option.none => Except.error (PyErr.keyError level)
  | some code =>
      Except.ok { source := klass, err_date := ("NOW()"), status := code,
                  err_msg := title, err_additional := additional_data,
                  env := env_name }

/-! ## Job lifecycle (`CronBase.run`, `CronBase.build_error_output`) -/

/-- A Python exception as captured by `sys.exc_info()`: the type name
(`type(error_value).__name__`), the message (`str(error_value)`), and
the formatted traceback frames
(`traceback.format_list(traceback.extract_tb(error_tb))`). -/
structure PyExc : Type where
  kind : String
  msg : String
  tb : List String

/-- `CronBase.build_error_output`: the `alert_data` dict, keys in
insertion order. -/
def CronBase.build_error_output (e : PyExc) (host os : String) : PyVal :=
  PyVal.dict [(("type"), PyVal.str e.kind), (("value"), PyVal.str e.msg),
              (("host"), PyVal.str host), (("os"), PyVal.str os),
              (("traceback"), PyVal.list (e.tb.map PyVal.str))]

/-- Result of one `CronBase.run` invocation: the `self.send_alert`
calls it makes, as `(level, title, additional_data)` triples in call
order, and the process exit status passed to `sys.exit`. -/
structure RunResult : Type where
  events : List (String × String × PyVal)
  exit_code : Nat

/-- `CronBase.run`: the lifecycle driver.  `body` is the outcome of
`self.cron_process()` (the job body): normal return or a raised
exception.  Alert dispatch is assumed to return normally (channel
delivery failures are covered by `CronBase.send_alert`).  Note that
`sys.exit(0)` raises `SystemExit`, which `except Exception` does not
catch. -/
def CronBase.run (body : Except PyExc Unit) (host os : String) : RunResult :=
  match body with
  | Except.ok _ =>
      { events := [(("SUCCESS"), ("Job START"), PyVal.none),
                   (("SUCCESS"), ("Job FINAL"), PyVal.none)],
        exit_code := 0 }
  | Except.error e =>
      { events := [(("SUCCESS"), ("Job START"), PyVal.none),
                   (("FAILURE"), ("Failure during Job"),
                    CronBase.build_error_output e host os)],
        exit_code := 1 }

/-- Lookup of a key in a `PyVal` that is a dict. -/
def pyDictGet : PyVal → String → Option PyVal
| PyVal.dict kvs, k => pyLookup kvs k
| _, _ => Option.none

/-! ## Helper lemmas -/

theorem AlertSystem.send_alert_pos (s : AlertSystem) (klass level title data : String)
    (h1 : level ∈ s.levels) (h2 : level ∈ s.monitored_levels) :
    s.send_alert klass level title data =
      some { klass := klass, level := level, title := title, additional_data := data } := by
  simp [AlertSystem.send_alert, h1, h2]

theorem AlertSystem.send_alert_neg (s : AlertSystem) (klass level title data : String)
    (h : level ∉ s.levels ∨ level ∉ s.monitored_levels) :
    s.send_alert klass level title data = Option.none := by
  rcases h with h | h
  · simp [AlertSystem.send_alert, h]
  · by_cases h1 : level ∈ s.levels <;> simp [AlertSystem.send_alert, h1, h]

theorem AlertSystem.send_alert_some_iff (s : AlertSystem) (klass level title data : String) :
    (∃ call, s.send_alert klass level title data = some call) ↔
      (level ∈ s.levels ∧ level ∈ s.monitored_levels) := by
  constructor
  · intro h
    rcases h with ⟨call, hc⟩
    by_cases h1 : level ∈ s.levels
    · by_cases h2 : level ∈ s.monitored_levels
      · exact ⟨h1, h2⟩
      · rw [AlertSystem.send_alert_neg s klass level title data (Or.inr h2)] at hc
        cases hc
    · rw [AlertSystem.send_alert_neg s klass level title data (Or.inl h1)] at hc
      cases hc
  · intro h
    exact ⟨_, AlertSystem.send_alert_pos s klass level title data h.1 h.2⟩

theorem countIdx_nil (i : Nat) : countIdx i [] = 0 := rfl

theorem countIdx_cons (i : Nat) (p : Nat × DeliveryCall) (tr : List (Nat × DeliveryCall)) :
    countIdx i (p :: tr) = (if p.1 = i then 1 else 0) + countIdx i tr := by
  simp only [countIdx, List.filter_cons]
  by_cases h : p.1 = i
  · simp only [h]
    simp
    omega
  · simp [h]

/-- Every call recorded by the fan-out loop is tagged with an index at
least the loop's starting index. -/
theorem send_alert_loop_idx_ge (channels : List Channel) (idx : Nat)
    (klass level title data : String) :
    ∀ p ∈ (CronBase.send_alert_loop channels idx klass level title data).1, idx ≤ p.1 := by
  induction channels generalizing idx with
  | nil => intro p hp; simp [CronBase.send_alert_loop] at hp
  | cons c rest ih =>
    intro p hp
    cases hfil : c.sys.send_alert klass level title data with
    | none =>
        simp only [CronBase.send_alert_loop, hfil] at hp
        exact Nat.le_of_succ_le (ih (idx + 1) p hp)
    | some call =>
        cases hdel : c.deliver call with
        | ok u =>
            simp only [CronBase.send_alert_loop, hfil, hdel] at hp
            rcases List.mem_cons.mp hp with h | h
            · rw [h]
            · exact Nat.le_of_succ_le (ih (idx + 1) p h)
        | error e =>
            simp only [CronBase.send_alert_loop, hfil, hdel] at hp
            rcases List.mem_cons.mp hp with h | h
            · rw [h]
            · cases h

theorem countIdx_eq_zero_of_lt (channels : List Channel) (idx j : Nat)
    (klass level title data : String) (hj : j < idx) :
    countIdx j (CronBase.send_alert_loop channels idx klass level title data).1 = 0 := by
  have h := send_alert_loop_idx_ge channels idx klass level title data
  simp only [countIdx, List.length_eq_zero]
  rw [List.filter_eq_nil_iff]
  intro p hp
  have h2 := h p hp
  simp only [beq_iff_eq]
  omega

/-- Every call recorded by the fan-out loop carries exactly the loop's
arguments. -/
theorem send_alert_loop_call_eq (channels : List Channel) (idx : Nat)
    (klass level title data : String) :
    ∀ p ∈ (CronBase.send_alert_loop channels idx klass level title data).1,
      p.2 = { klass := klass, level := level, title := title, additional_data := data } := by
  induction channels generalizing idx with
  | nil => intro p hp; simp [CronBase.send_alert_loop] at hp
  | cons c rest ih =>
    intro p hp
    cases hfil : c.sys.send_alert klass level title data with
    | none =>
        simp only [CronBase.send_alert_loop, hfil] at hp
        exact ih (idx + 1) p hp
    | some call =>
        have hcall : call = { klass := klass, level := level, title := title,
                              additional_data := data } := by
          by_cases h1 : level ∈ c.sys.levels
          · by_cases h2 : level ∈ c.sys.monitored_levels
            · rw [AlertSystem.send_alert_pos c.sys klass level title data h1 h2] at hfil
              exact (Option.some.inj hfil).symm
            · rw [AlertSystem.send_alert_neg c.sys klass level title data (Or.inr h2)] at hfil
              cases hfil
          · rw [AlertSystem.send_alert_neg c.sys klass level title data (Or.inl h1)] at hfil
            cases hfil
        cases hdel : c.deliver call with
        | ok u =>
            simp only [CronBase.send_alert_loop, hfil, hdel] at hp
            rcases List.mem_cons.mp hp with h | h
            · rw [h]; exact hcall
            · exact ih (idx + 1) p h
        | error e =>
            simp only [CronBase.send_alert_loop, hfil, hdel] at hp
            rcases List.mem_cons.mp hp with h | h
            · rw [h]; exact hcall
            · cases h

/-- When every channel of a list-segment delivers successfully, the
fan-out loop over a concatenation splits into the two segments. -/
theorem send_alert_loop_append (xs ys : List Channel) (idx : Nat)
    (klass level title data : String)
    (hok : ∀ c ∈ xs, ∀ call, c.deliver call = Except.ok ()) :
    CronBase.send_alert_loop (xs ++ ys) idx klass level title data =
      ((CronBase.send_alert_loop xs idx klass level title data).1 ++
         (CronBase.send_alert_loop ys (idx + xs.length) klass level title data).1,
       (CronBase.send_alert_loop ys (idx + xs.length) klass level title data).2) := by
  induction xs generalizing idx with
  | nil => simp [CronBase.send_alert_loop]
  | cons c rest ih =>
    have hokc : ∀ call, c.deliver call = Except.ok () := hok c (List.mem_cons_self c rest)
    have hokr : ∀ c2 ∈ rest, ∀ call, c2.deliver call = Except.ok () :=
      fun c2 h2 => hok c2 (List.mem_cons_of_mem c h2)
    have harith : idx + (rest.length + 1) = (idx + 1) + rest.length := by omega
    cases hfil : c.sys.send_alert klass level title data with
    | none =>
        simp only [List.cons_append, CronBase.send_alert_loop, hfil, List.length_cons]
        rw [harith]
        exact ih (idx + 1) hokr
    | some call =>
        simp only [List.cons_append, CronBase.send_alert_loop, hfil, hokc call,
                   List.length_cons]
        rw [harith]
        simp only [List.append_eq]
        rw [ih (idx + 1) hokr]

/-- Per-channel delivery count during one loop run, when no delivery
fails: the channel at position `i` is delivered to exactly once when the
level passes both of its filters, zero times otherwise. -/
theorem countIdx_send_alert_loop (channels : List Channel) (idx i : Nat) (c : Channel)
    (klass level title data : String)
    (hget : channels.get? i = some c)
    (hok : ∀ ch ∈ channels, ∀ call, ch.deliver call = Except.ok ()) :
    countIdx (idx + i) (CronBase.send_alert_loop channels idx klass level title data).1 =
      (if level ∈ c.sys.levels ∧ level ∈ c.sys.monitored_levels then 1 else 0) := by
  induction channels generalizing idx i with
  | nil => cases hget
  | cons ch rest ih =>
    have hokc : ∀ call, ch.deliver call = Except.ok () := hok ch (List.mem_cons_self ch rest)
    have hokr : ∀ c2 ∈ rest, ∀ call, c2.deliver call = Except.ok () :=
      fun c2 h2 => hok c2 (List.mem_cons_of_mem ch h2)
    cases i with
    | zero =>
        have hc : ch = c := by
          simp only [List.get?_cons_zero, Option.some.injEq] at hget
          exact hget
        subst hc
        cases hfil : ch.sys.send_alert klass level title data with
        | none =>
            have hnot : ¬ (level ∈ ch.sys.levels ∧ level ∈ ch.sys.monitored_levels) := by
              intro hcontra
              rcases (AlertSystem.send_alert_some_iff ch.sys klass level title data).mpr
                hcontra with ⟨call, hcall⟩
              rw [hcall] at hfil
              cases hfil
            simp only [CronBase.send_alert_loop, hfil]
            rw [if_neg hnot, Nat.add_zero]
            exact countIdx_eq_zero_of_lt rest (idx + 1) idx klass level title data
              (Nat.lt_succ_self idx)
        | some call =>
            have hyes : level ∈ ch.sys.levels ∧ level ∈ ch.sys.monitored_levels := by
              exact (AlertSystem.send_alert_some_iff ch.sys klass level title data).mp
                ⟨call, hfil⟩
            simp only [CronBase.send_alert_loop, hfil, hokc call]
            rw [if_pos hyes, Nat.add_zero, countIdx_cons]
            rw [countIdx_eq_zero_of_lt rest (idx + 1) idx klass level title data
              (Nat.lt_succ_self idx)]
            simp
    | succ i2 =>
        have hget2 : rest.get? i2 = some c := by
          simpa using hget
        have harith : idx + (i2 + 1) = (idx + 1) + i2 := by omega
        cases hfil : ch.sys.send_alert klass level title data with
        | none =>
            simp only [CronBase.send_alert_loop, hfil]
            rw [harith]
            exact ih (idx + 1) i2 hget2 hokr
        | some call =>
            simp only [CronBase.send_alert_loop, hfil, hokc call]
            rw [countIdx_cons]
            have hne : ¬ (idx = idx + (i2 + 1)) := by omega
            rw [if_neg hne]
            rw [harith, Nat.zero_add]
            exact ih (idx + 1) i2 hget2 hokr

/-- The field-building loop of `send_alert_internal` appends, in dict
iteration order, one field per key other than `traceback`. -/
theorem slack_fold_fields (kvs : List (String × PyVal)) (fields0 : List SlackField) :
    kvs.foldl
        (fun fs kv =>
          if kv.1 ≠ ("traceback") then SlackAlertSystem.append_field fs kv.1 kv.2 else fs)
        fields0 =
      fields0 ++ (kvs.filter (fun kv => kv.1 ≠ ("traceback"))).map
        (fun kv => { title := kv.1, value := kv.2, short := true }) := by
  induction kvs generalizing fields0 with
  | nil => simp
  | cons kv rest ih =>
    simp only [List.foldl_cons, List.filter_cons]
    by_cases h : kv.1 = ("traceback")
    · rw [if_neg (by simp [h]), if_neg (by simp [h])]
      exact ih fields0
    · rw [if_pos h, if_pos (by simp [h])]
      rw [ih]
      simp [SlackAlertSystem.append_field]

/-- `"\n".join` over a list of strings succeeds and intercalates. -/
theorem pyJoinList_map (tb : List String) :
    pyJoinList (tb.map PyVal.str) = Except.ok tb := by
  induction tb with
  | nil => rfl
  | cons s rest ih => simp [pyJoinList, ih, Except.map]

/-! ## Claims -/

/-- Claim C2: a wrapped operation that raises a matching error on every
attempt, run with `tries=3, delay=1, backoff=2`, is invoked exactly 3
times, the run sleeps with delays 1, 2, 4 in that order (the trace shows
the last sleep comes after the final failed attempt), and the wrapper
re-raises the last captured error unchanged, with no wrapping error
type. -/
theorem claim_C2 {ε α : Type} (f : Nat → AttemptResult ε α) (err : Nat → ε)
    (hf : ∀ n, f n = AttemptResult.matchErr (err n)) :
    countAttempts (retry.run f false 3 1 2).1 = 3 ∧
    sleepDelays (retry.run f false 3 1 2).1 = [1, 2, 4] ∧
    (retry.run f false 3 1 2).1 =
      [RetryEvent.attempt 0, RetryEvent.sleep 1,
       RetryEvent.attempt 1, RetryEvent.sleep 2,
       RetryEvent.attempt 2, RetryEvent.sleep 4] ∧
    (retry.run f false 3 1 2).2 = RetryOutcome.raised (err 2) := by
  have htrace : retry.run f false 3 1 2 =
      ([RetryEvent.attempt 0, RetryEvent.sleep 1,
        RetryEvent.attempt 1, RetryEvent.sleep 2,
        RetryEvent.attempt 2, RetryEvent.sleep 4], RetryOutcome.raised (err 2)) := by
    simp [retry.run, retry.f_retry, hf]
  exact ⟨by rw [htrace]; rfl, by rw [htrace]; rfl, by rw [htrace], by rw [htrace]⟩

theorem claim_C2_witness :
    countAttempts (retry.run
      ((fun _ => AttemptResult.matchErr 7) : Nat → AttemptResult Nat Unit) false 3 1 2).1 = 3 ∧
    sleepDelays (retry.run
      ((fun _ => AttemptResult.matchErr 7) : Nat → AttemptResult Nat Unit) false 3 1 2).1 =
      [1, 2, 4] ∧
    (retry.run
      ((fun _ => AttemptResult.matchErr 7) : Nat → AttemptResult Nat Unit) false 3 1 2).2 =
      RetryOutcome.raised 7 := by
  have h := claim_C2 ((fun _ => AttemptResult.matchErr 7) : Nat → AttemptResult Nat Unit)
    (fun _ => 7) (fun _ => rfl)
  exact ⟨h.1, h.2.1, h.2.2.2⟩

/-- Claim C3 counterexample: with `tries=3` and a callback supplied, an
always-failing operation triggers the callback 3 times (once after every
failed attempt, including the final one), not exactly twice as
claimed. -/
theorem claim_C3_counterexample :
    countCallbacks (retry.run
      ((fun _ => AttemptResult.matchErr 7) : Nat → AttemptResult Nat Unit) true 3 1 2).1 ≠ 2 := by
  decide

/-- Claim C3 (amended): with `tries=3` and a callback supplied, an
always-failing matching operation invokes the callback exactly three
times — before the 2nd attempt, before the 3rd attempt, and once more
after the final (3rd) failed attempt — and never before the 1st
attempt, as the full event trace shows. -/
theorem claim_C3_amended {ε α : Type} (f : Nat → AttemptResult ε α) (err : Nat → ε)
    (hf : ∀ n, f n = AttemptResult.matchErr (err n)) :
    (retry.run f true 3 1 2).1 =
      [RetryEvent.attempt 0, RetryEvent.callback (err 0) 3 1, RetryEvent.sleep 1,
       RetryEvent.attempt 1, RetryEvent.callback (err 1) 2 2, RetryEvent.sleep 2,
       RetryEvent.attempt 2, RetryEvent.callback (err 2) 1 4, RetryEvent.sleep 4] ∧
    countCallbacks (retry.run f true 3 1 2).1 = 3 := by
  have htrace : (retry.run f true 3 1 2).1 =
      [RetryEvent.attempt 0, RetryEvent.callback (err 0) 3 1, RetryEvent.sleep 1,
       RetryEvent.attempt 1, RetryEvent.callback (err 1) 2 2, RetryEvent.sleep 2,
       RetryEvent.attempt 2, RetryEvent.callback (err 2) 1 4, RetryEvent.sleep 4] := by
    simp [retry.run, retry.f_retry, hf]
  exact ⟨htrace, by rw [htrace]; rfl⟩

theorem claim_C3_amended_witness :
    (retry.run ((fun _ => AttemptResult.matchErr 7) : Nat → AttemptResult Nat Unit) true 3 1 2).1 =
      [RetryEvent.attempt 0, RetryEvent.callback 7 3 1, RetryEvent.sleep 1,
       RetryEvent.attempt 1, RetryEvent.callback 7 2 2, RetryEvent.sleep 2,
       RetryEvent.attempt 2, RetryEvent.callback 7 1 4, RetryEvent.sleep 4] ∧
    countCallbacks (retry.run
      ((fun _ => AttemptResult.matchErr 7) : Nat → AttemptResult Nat Unit) true 3 1 2).1 = 3 :=
  claim_C3_amended ((fun _ => AttemptResult.matchErr 7) : Nat → AttemptResult Nat Unit)
    (fun _ => 7) (fun _ => rfl)

/-- Claim C7: an exception whose type is not in the matching-exception
set propagates out of the retry wrapper immediately on the first
occurrence, with zero sleeps, zero callback invocations and no further
attempts. -/
theorem claim_C7 {ε α : Type} (f : Nat → AttemptResult ε α) (e : ε)
    (has_exception_callback : Bool) (tries delay backoff : Nat)
    (hf : f 0 = AttemptResult.otherErr e) (htries : 0 < tries) :
    retry.run f has_exception_callback tries delay backoff =
      ([RetryEvent.attempt 0], RetryOutcome.raised e) ∧
    countCallbacks (retry.run f has_exception_callback tries delay backoff).1 = 0 ∧
    sleepDelays (retry.run f has_exception_callback tries delay backoff).1 = [] ∧
    countAttempts (retry.run f has_exception_callback tries delay backoff).1 = 1 := by
  obtain ⟨t, rfl⟩ : ∃ t, tries = t + 1 := ⟨tries - 1, by omega⟩
  have htrace : retry.run f has_exception_callback (t + 1) delay backoff =
      ([RetryEvent.attempt 0], RetryOutcome.raised e) := by
    simp [retry.run, retry.f_retry, hf]
  exact ⟨htrace, by rw [htrace]; rfl, by rw [htrace]; rfl, by rw [htrace]; rfl⟩

theorem claim_C7_witness :
    retry.run ((fun _ => AttemptResult.otherErr 9) : Nat → AttemptResult Nat Unit) true 3 5 2 =
      ([RetryEvent.attempt 0], RetryOutcome.raised 9) ∧
    countCallbacks (retry.run
      ((fun _ => AttemptResult.otherErr 9) : Nat → AttemptResult Nat Unit) true 3 5 2).1 = 0 :=
  by
  have h := claim_C7 ((fun _ => AttemptResult.otherErr 9) : Nat → AttemptResult Nat Unit) 9
    true 3 5 2 rfl (by decide)
  exact ⟨h.1, h.2.1⟩

/-- Claim C5: `set_monitored_levels` replaces the monitored set with the
requested levels intersected with the supported levels (unsupported
entries silently dropped), the result is always a subset of the
supported set, the supported set itself is unchanged, and
`set_alert_levels` for an unregistered system name is a no-op. -/
theorem claim_C5 (s : AlertSystem) (new_levels : List String)
    (systems : List (String × AlertSystem)) (name : String) :
    ((s.set_monitored_levels new_levels).monitored_levels =
       new_levels.filter (fun level => decide (level ∈ s.levels))) ∧
    (∀ x, x ∈ (s.set_monitored_levels new_levels).monitored_levels ↔
       (x ∈ new_levels ∧ x ∈ s.levels)) ∧
    (∀ x ∈ (s.set_monitored_levels new_levels).monitored_levels, x ∈ s.levels) ∧
    ((s.set_monitored_levels new_levels).levels = s.levels) ∧
    (name ∉ systems.map Prod.fst →
       CronBase.set_alert_levels systems name new_levels = systems) := by
  refine ⟨rfl, ?_, ?_, rfl, ?_⟩
  · intro x
    simp [AlertSystem.set_monitored_levels, List.mem_filter]
  · intro x hx
    simp [AlertSystem.set_monitored_levels, List.mem_filter] at hx
    exact hx.2
  · intro hnot
    simp [CronBase.set_alert_levels, hnot]

theorem claim_C5_witness :
    (((AlertSystem.init ("e")).set_monitored_levels
        [("FAILURE"), ("BOGUS")]).monitored_levels = [("FAILURE")]) ∧
    (("BOGUS") ∉ ((AlertSystem.init ("e")).set_monitored_levels
        [("FAILURE"), ("BOGUS")]).monitored_levels) ∧
    CronBase.set_alert_levels [(("slack"), AlertSystem.init ("e"))] ("bi_alerts")
        [("FAILURE")] = [(("slack"), AlertSystem.init ("e"))] := by
  have h := claim_C5 (AlertSystem.init ("e")) [("FAILURE"), ("BOGUS")]
    [(("slack"), AlertSystem.init ("e"))] ("bi_alerts")
  refine ⟨h.1.trans (by decide), ?_, h.2.2.2.2 (by decide)⟩
  intro hmem
  exact absurd ((h.2.1 ("BOGUS")).mp hmem).2 (by decide)

/-- Claim C9: the database channel maps the level to its integer status
code — SUCCESS inserts `status = 0`, WARNING `status = 1`, FAILURE
`status = 2` — alongside columns `(source, err_date, err_msg,
err_additional, env)` bound to the call's source, the server-side
`NOW()`, the title, the serialized payload and the environment name. -/
theorem claim_C9 (env_name klass title additional_data : String) :
    (DataLoopAlertSystem.send_alert_internal env_name klass ("SUCCESS") title additional_data =
       Except.ok { source := klass, err_date := ("NOW()"), status := 0, err_msg := title,
                   err_additional := additional_data, env := env_name }) ∧
    (DataLoopAlertSystem.send_alert_internal env_name klass ("WARNING") title additional_data =
       Except.ok { source := klass, err_date := ("NOW()"), status := 1, err_msg := title,
                   err_additional := additional_data, env := env_name }) ∧
    (DataLoopAlertSystem.send_alert_internal env_name klass ("FAILURE") title additional_data =
       Except.ok { source := klass, err_date := ("NOW()"), status := 2, err_msg := title,
                   err_additional := additional_data, env := env_name }) :=
  ⟨rfl, rfl, rfl⟩

/-- Claim C4: a job body that returns normally yields exactly two
dispatched events (START then FINAL), both SUCCESS, and exit status 0;
a job body that raises an error of kind `kind` with message `"boom"`
yields exactly two dispatched events (START then FAILURE), exit status
1, and the FAILURE payload carries the error kind, the message
`"boom"`, the host, the OS and the formatted stack frames. -/
theorem claim_C4 (host os kind : String) (tb : List String) :
    (CronBase.run (Except.ok ()) host os).exit_code = 0 ∧
    ((CronBase.run (Except.ok ()) host os).events.map (fun ev => (ev.1, ev.2.1))) =
      [(("SUCCESS"), ("Job START")), (("SUCCESS"), ("Job FINAL"))] ∧
    (CronBase.run (Except.error { kind := kind, msg := ("boom"), tb := tb })
       host os).exit_code = 1 ∧
    (∃ p, (CronBase.run (Except.error { kind := kind, msg := ("boom"), tb := tb })
             host os).events =
        [(("SUCCESS"), ("Job START"), PyVal.none),
         (("FAILURE"), ("Failure during Job"), p)] ∧
      pyDictGet p ("type") = some (PyVal.str kind) ∧
      pyDictGet p ("value") = some (PyVal.str ("boom")) ∧
      pyDictGet p ("host") = some (PyVal.str host) ∧
      pyDictGet p ("os") = some (PyVal.str os) ∧
      pyDictGet p ("traceback") = some (PyVal.list (tb.map PyVal.str))) := by
  refine ⟨rfl, rfl, rfl,
    CronBase.build_error_output { kind := kind, msg := ("boom"), tb := tb } host os,
    rfl, rfl, rfl, rfl, rfl, rfl⟩

/-- Claim C10: every channel receiving a dispatched event receives the
caller's title prefixed with `"CronBase processing: "`, and a non-string
payload (including the absent payload of lifecycle events, Python
`None`) is JSON-serialized before fan-out, so channels always receive a
string — `None` in particular arrives as `"null"`. -/
theorem claim_C10 (channels : List Channel) (klass level title : String) (v : PyVal) :
    (∀ p ∈ (CronBase.send_alert channels klass level title v).1,
       p.2.title = ("CronBase processing: ") ++ title ∧
       p.2.additional_data = pyStrOrJson v) ∧
    (pyIsStr v = false → pyStrOrJson v = jsonDumps v) ∧
    pyStrOrJson PyVal.none = "null" := by
  refine ⟨?_, ?_, rfl⟩
  · intro p hp
    have h := send_alert_loop_call_eq channels 0 klass level
      (CronBase.build_descriptive ++ (": ") ++ title) (pyStrOrJson v) p hp
    exact ⟨by rw [h]; exact rfl, by rw [h]⟩
  · intro hv
    cases v <;> try rfl
    simp [pyIsStr] at hv

theorem claim_C10_witness :
    ((0, DeliveryCall.mk ("K") ("SUCCESS") ("CronBase processing: Job START") ("null")) ∈
       (CronBase.send_alert
         [Channel.mk (AlertSystem.init ("e")) (fun _ => Except.ok ())]
         ("K") ("SUCCESS") ("Job START") PyVal.none).1) ∧
    (("CronBase processing: Job START") = ("CronBase processing: ") ++ ("Job START")) ∧
    pyStrOrJson PyVal.none = "null" := by
  have h := claim_C10
    [Channel.mk (AlertSystem.init ("e")) (fun _ => Except.ok ())]
    ("K") ("SUCCESS") ("Job START") PyVal.none
  have hmem : (0, DeliveryCall.mk ("K") ("SUCCESS")
      ("CronBase processing: Job START") ("null")) ∈
      (CronBase.send_alert
        [Channel.mk (AlertSystem.init ("e")) (fun _ => Except.ok ())]
        ("K") ("SUCCESS") ("Job START") PyVal.none).1 :=
    List.mem_singleton.mpr rfl
  exact ⟨hmem, (h.1 _ hmem).1, h.2.2⟩

/-- Claim C1: during one dispatch in which no delivery fails, a channel
whose supported set or monitored set does not contain the event level
receives zero delivery calls, and a channel whose supported and
monitored sets both contain the level receives exactly one delivery
call. -/
theorem claim_C1 (channels : List Channel) (klass level title : String) (data : PyVal)
    (i : Nat) (c : Channel)
    (hget : channels.get? i = some c)
    (hok : ∀ ch ∈ channels, ∀ call, ch.deliver call = Except.ok ()) :
    countIdx i (CronBase.send_alert channels klass level title data).1 =
      (if level ∈ c.sys.levels ∧ level ∈ c.sys.monitored_levels then 1 else 0) := by
  have h := countIdx_send_alert_loop channels 0 i c klass level
    (CronBase.build_descriptive ++ (": ") ++ title) (pyStrOrJson data) hget hok
  rw [Nat.zero_add] at h
  exact h

theorem claim_C1_witness :
    countIdx 0 (CronBase.send_alert
      [Channel.mk (AlertSystem.init ("e")) (fun _ => Except.ok ())]
      ("K") ("SUCCESS") ("Job START") PyVal.none).1 = 1 ∧
    countIdx 0 (CronBase.send_alert
      [Channel.mk ((AlertSystem.init ("e")).set_monitored_levels [("FAILURE")])
        (fun _ => Except.ok ())]
      ("K") ("SUCCESS") ("Job START") PyVal.none).1 = 0 := by
  constructor
  · have h := claim_C1
      [Channel.mk (AlertSystem.init ("e")) (fun _ => Except.ok ())]
      ("K") ("SUCCESS") ("Job START") PyVal.none 0
      (Channel.mk (AlertSystem.init ("e")) (fun _ => Except.ok ()))
      rfl
      (by intro ch hch call
          rw [List.mem_singleton] at hch
          subst hch
          rfl)
    rw [h]
    decide
  · have h := claim_C1
      [Channel.mk ((AlertSystem.init ("e")).set_monitored_levels [("FAILURE")])
        (fun _ => Except.ok ())]
      ("K") ("SUCCESS") ("Job START") PyVal.none 0
      (Channel.mk ((AlertSystem.init ("e")).set_monitored_levels [("FAILURE")])
        (fun _ => Except.ok ()))
      rfl
      (by intro ch hch call
          rw [List.mem_singleton] at hch
          subst hch
          rfl)
    rw [h]
    decide

/-- Claim C8: channels are invoked in registration order, and a delivery
error raised by a channel is not caught by the router — the dispatch
result carries the channel's error unchanged, the channels registered
before it (that passed their filters) were delivered to first, and no
channel registered after the failing one receives the event. -/
theorem claim_C8 (pre post : List Channel) (c : Channel) (klass level title : String)
    (data : PyVal) (e : PyErr)
    (hok : ∀ ch ∈ pre, ∀ call, ch.deliver call = Except.ok ())
    (h1 : level ∈ c.sys.levels) (h2 : level ∈ c.sys.monitored_levels)
    (hfail : c.deliver (DeliveryCall.mk klass level
        (CronBase.build_descriptive ++ (": ") ++ title) (pyStrOrJson data)) =
      Except.error e) :
    CronBase.send_alert (pre ++ c :: post) klass level title data =
      ((CronBase.send_alert pre klass level title data).1 ++
         [(pre.length, DeliveryCall.mk klass level
             (CronBase.build_descriptive ++ (": ") ++ title) (pyStrOrJson data))],
       some e) := by
  unfold CronBase.send_alert
  rw [send_alert_loop_append pre (c :: post) 0 klass level
    (CronBase.build_descriptive ++ (": ") ++ title) (pyStrOrJson data) hok]
  have hc : CronBase.send_alert_loop (c :: post) (0 + pre.length) klass level
      (CronBase.build_descriptive ++ (": ") ++ title) (pyStrOrJson data) =
      ([(0 + pre.length, DeliveryCall.mk klass level
          (CronBase.build_descriptive ++ (": ") ++ title) (pyStrOrJson data))], some e) := by
    simp only [CronBase.send_alert_loop,
      AlertSystem.send_alert_pos c.sys klass level
        (CronBase.build_descriptive ++ (": ") ++ title) (pyStrOrJson data) h1 h2,
      hfail]
  rw [hc]
  simp

theorem claim_C8_witness :
    CronBase.send_alert
        ([Channel.mk (AlertSystem.init ("e")) (fun _ => Except.ok ())] ++
          Channel.mk (AlertSystem.init ("e"))
            (fun _ => Except.error (PyErr.cronException ("Failure sending Slack Alert."))) ::
          [Channel.mk (AlertSystem.init ("e")) (fun _ => Except.ok ())])
        ("K") ("FAILURE") ("t") PyVal.none =
      ((CronBase.send_alert
          [Channel.mk (AlertSystem.init ("e")) (fun _ => Except.ok ())]
          ("K") ("FAILURE") ("t") PyVal.none).1 ++
         [(1, DeliveryCall.mk ("K") ("FAILURE")
             (CronBase.build_descriptive ++ (": ") ++ ("t")) (pyStrOrJson PyVal.none))],
       some (PyErr.cronException ("Failure sending Slack Alert."))) := by
  have h := claim_C8
    [Channel.mk (AlertSystem.init ("e")) (fun _ => Except.ok ())]
    [Channel.mk (AlertSystem.init ("e")) (fun _ => Except.ok ())]
    (Channel.mk (AlertSystem.init ("e"))
      (fun _ => Except.error (PyErr.cronException ("Failure sending Slack Alert."))))
    ("K") ("FAILURE") ("t") PyVal.none
    (PyErr.cronException ("Failure sending Slack Alert."))
    (by intro ch hch call
        rw [List.mem_singleton] at hch
        subst hch
        rfl)
    (by decide) (by decide) rfl
  exact h


/-- Claim C6 counterexample: a non-empty serialized structured payload
WITHOUT a `traceback` key makes `send_alert_internal` raise
`KeyError('traceback')` instead of posting a message, so the payload's
other keys (here `foo`) never become display fields of any posted
message. -/
theorem claim_C6_counterexample :
    SlackAlertSystem.send_alert_internal ("u") ("stage") ("CronJob") ("FAILURE") ("t")
        (jsonDumps (PyVal.dict [(("foo"), PyVal.str ("bar"))])) =
      Except.error (PyErr.keyError ("traceback")) := rfl

/-- Claim C6 (amended): for every webhook delivery whose detail is a
non-empty serialized structured payload that CONTAINS a `traceback` key
(holding a list of strings), the payload is parsed, every key other
than `traceback` is appended as an additional display field in
iteration order, no field named `traceback` is added, and the traceback
entries joined with newlines are rendered as a separate code-fenced
text block; when the `traceback` key is absent the channel instead
raises a key-lookup error and posts nothing (see the counterexample). -/
theorem claim_C6_amended (username env_name klass title raw : String)
    (kvs : List (String × PyVal)) (tb : List String)
    (hraw : raw ≠ "")
    (hparse : jsonLoads raw = Except.ok (PyVal.dict kvs))
    (hne : kvs ≠ [])
    (htb : pyLookup kvs ("traceback") = some (PyVal.list (tb.map PyVal.str))) :
    SlackAlertSystem.send_alert_internal username env_name klass ("FAILURE") title raw =
      Except.ok (SlackWrapper.mk username
        [SlackMsg.mk username (("FAILURE") ++ (": ") ++ title) ("danger")
          (some (("```") ++ String.intercalate ("\n") tb ++ ("```")))
          (some [("text")])
          ([SlackField.mk ("source") (PyVal.str klass) true,
            SlackField.mk ("level") (PyVal.str ("FAILURE")) true,
            SlackField.mk ("env") (PyVal.str env_name) true] ++
           (kvs.filter (fun kv => decide (kv.1 ≠ ("traceback")))).map
             (fun kv => SlackField.mk kv.1 kv.2 true))]) ∧
    (∀ fld ∈ (kvs.filter (fun kv => decide (kv.1 ≠ ("traceback")))).map
        (fun kv => SlackField.mk kv.1 kv.2 true), fld.title ≠ ("traceback")) := by
  have hemp : kvs.isEmpty = false := by
    cases kvs with
    | nil => exact absurd rfl hne
    | cons kv rest => rfl
  constructor
  · simp only [SlackAlertSystem.send_alert_internal,
      show SlackAlertSystem.colors.lookup ("FAILURE") = some ("danger") from rfl,
      bind, Except.bind]
    rw [if_pos hraw, hparse]
    simp only [pyTruthy, hemp, Bool.not_false, if_true, htb]
    have hjoin : pyJoin ("\n") (PyVal.list (List.map PyVal.str tb)) =
        Except.ok (String.intercalate ("\n") tb) := by
      simp [pyJoin, pyJoinList_map, Except.map]
    rw [hjoin]
    rw [slack_fold_fields]
    simp [SlackAlertSystem.append_field]
  · intro fld hfld
    rcases List.mem_map.mp hfld with ⟨kv, hkv, hfldeq⟩
    rcases List.mem_filter.mp hkv with ⟨hkvmem, hkvne⟩
    rw [← hfldeq]
    simpa using hkvne

theorem claim_C6_amended_witness :
    SlackAlertSystem.send_alert_internal ("u") ("stage") ("CronJob") ("FAILURE") ("t")
        (jsonDumps (PyVal.dict
          [(("traceback"), PyVal.list [PyVal.str ("l1"), PyVal.str ("l2")]),
           (("foo"), PyVal.str ("bar"))])) =
      Except.ok (SlackWrapper.mk ("u")
        [SlackMsg.mk ("u") ("FAILURE: t") ("danger")
          (some ("```l1\nl2```"))
          (some [("text")])
          [SlackField.mk ("source") (PyVal.str ("CronJob")) true,
           SlackField.mk ("level") (PyVal.str ("FAILURE")) true,
           SlackField.mk ("env") (PyVal.str ("stage")) true,
           SlackField.mk ("foo") (PyVal.str ("bar")) true]]) := by
  have h := claim_C6_amended ("u") ("stage") ("CronJob") ("t")
    (jsonDumps (PyVal.dict
      [(("traceback"), PyVal.list [PyVal.str ("l1"), PyVal.str ("l2")]),
       (("foo"), PyVal.str ("bar"))]))
    [(("traceback"), PyVal.list [PyVal.str ("l1"), PyVal.str ("l2")]),
     (("foo"), PyVal.str ("bar"))]
    [("l1"), ("l2")]
    (by decide) rfl (by simp) rfl
  exact h.1
